import Mathlib

/-!
Shallow embedding of `src/vmm/src/memory_manager.rs` (the guest-memory
manager of the cloud-hypervisor VMM) and proofs about it.

Machine integers are modelled as `Nat` with explicit reduction `% 2^32`
(for `u32`) or `% 2^64` (for `u64`) exactly where the Rust code can wrap.
Rust arithmetic is modelled with release-build semantics: `+` on `u32`
wraps modulo `2^32`, `GuestAddress::unchecked_add` wraps modulo `2^64`,
and a shift amount is masked by the bit width.

External collaborators (the host CPU cpuid instruction, the host OS file
and mmap syscalls, the KVM control interface, the madvise advisory and the
general-purpose allocator) are inputs: their per-call outcomes are fields
of explicit environment records, so every code path of the source is a
path of the model.
-/

/-- Region types produced by the architecture layout collaborator
(`arch::RegionType`). The manager only distinguishes `Ram` from the rest. -/
inductive RegionType where
  | Ram
  | SubRegion
  | Reserved
deriving DecidableEq, BEq

/-- Errors of the vm-memory mmap backend (external crate `vm_memory`),
modelled minimally: the code mentions `MmapError::NoMemoryRegion`
explicitly; all other variants are collapsed into `Other`. -/
inductive MmapError where
  | NoMemoryRegion
  | Other (code : Nat)
deriving DecidableEq

/-- `enum Error` of `src/vmm/src/memory_manager.rs` lines 30-43.
The io errors carried by the first two variants are modelled by their
errno value. -/
inductive Error where
  | SharedFileCreate (errno : Nat)
  | SharedFileSetLen (errno : Nat)
  | GuestMemory (e : MmapError)
  | MemoryRangeAllocation
deriving DecidableEq

/-- One cpuid leaf result (`core::arch::x86_64::CpuidResult`). -/
structure CpuidResult where
  eax : Nat
  ebx : Nat
  ecx : Nat
  edx : Nat
deriving DecidableEq

/-- The host CPU answers to the three cpuid leaves that
`get_host_cpu_phys_bits` queries. The hardware is an input of the model. -/
structure HostCpuid where
  leaf_8000_0000 : CpuidResult
  leaf_8000_001f : CpuidResult
  leaf_8000_0008 : CpuidResult
deriving DecidableEq

/-- The condition of lines 53-57 of the source: the maximum extended leaf
reaches `0x8000_001f`, the vendor string is AuthenticAMD
(`ebx = 0x6874_7541`, `ecx = 0x444d_4163`, `edx = 0x6974_6e65`), and bit 0
of leaf `0x8000_001f`.eax (the SME feature bit) is set. -/
def amd_sme_enabled (c : HostCpuid) : Bool :=
  decide (0x8000001f ≤ c.leaf_8000_0000.eax)
    && (c.leaf_8000_0000.ebx == 0x68747541)
    && (c.leaf_8000_0000.ecx == 0x444d4163)
    && (c.leaf_8000_0000.edx == 0x69746e65)
    && ((c.leaf_8000_001f.eax &&& 0x1) != 0)

/-- Bits 6-11 of leaf `0x8000_001f`.ebx: the SME physical-address-bit
reduction (line 59 of the source). -/
def sme_reduction (c : HostCpuid) : Nat :=
  (c.leaf_8000_001f.ebx >>> 6) &&& 0x3f

/-- `get_host_cpu_phys_bits` (source lines 45-71). The u32 subtraction
`(leaf.eax & 0xff) - reduced` is modelled by its wrapping value
`(a + (2^32 - r)) % 2^32`, and the final `as u8` cast by `% 2^8`. -/
def get_host_cpu_phys_bits (c : HostCpuid) : Nat :=
  let reduced := if amd_sme_enabled c then sme_reduction c else 0
  if 0x80000008 ≤ c.leaf_8000_0000.eax then
    (((c.leaf_8000_0008.eax &&& 0xff) + (2 ^ 32 - reduced)) % 2 ^ 32) % 2 ^ 8
  else
    36

/-- The `MemoryManager` struct (source lines 22-28). The `guest_memory`
handle is modelled by the list of (guest address, length) regions the
built guest memory object contains; the `fd` VM handle carries no state
observable by this component and is omitted. Addresses and the slot
counter are `Nat` values standing for `u64` / `u32`. -/
structure MemoryManager where
  guest_memory : List (Nat × Nat)
  next_kvm_memory_slot : Nat
  start_of_device_area : Nat
  end_of_device_area : Nat
deriving DecidableEq

/-- `MemoryManager::allocate_kvm_memory_slot` (source lines 178-182):
returns the current counter and stores the counter incremented by one
(`u32` wrapping increment). -/
def allocate_kvm_memory_slot (m : MemoryManager) : Nat × MemoryManager :=
  let slot_id := m.next_kvm_memory_slot
  (slot_id, { m with next_kvm_memory_slot := (m.next_kvm_memory_slot + 1) % 2 ^ 32 })

/-- Iterated slot allocation: the list of slot ids returned by `k`
successive `allocate_kvm_memory_slot` calls, with the final state. -/
def allocate_slots : Nat → MemoryManager → List Nat × MemoryManager
  | 0, m => ([], m)
  | k + 1, m =>
    let p := allocate_kvm_memory_slot m
    let q := allocate_slots k p.2
    (p.1 :: q.1, q.2)

/-- `kvm_bindings::kvm_userspace_memory_region`, the record handed to the
KVM set-user-memory-region control call (source lines 192-198). -/
structure kvm_userspace_memory_region where
  slot : Nat
  guest_phys_addr : Nat
  memory_size : Nat
  userspace_addr : Nat
  flags : Nat
deriving DecidableEq

/-- Observable outcome of one `create_userspace_mapping` call: the
returned result, the manager state after the call, the memory region
record issued to the hypervisor, whether the madvise advisory was invoked,
and whether a merge-failure warning was logged. -/
structure MappingOutcome where
  result : Except Error Nat
  state : MemoryManager
  issued : kvm_userspace_memory_region
  advisoryInvoked : Bool
  mergeWarning : Bool

/-- `MemoryManager::create_userspace_mapping` (source lines 184-234).
The outcome of the hypervisor control call (`kvmOk`) and the return value
of the `madvise(MADV_MERGEABLE)` advisory (`madviseRet`, 0 on success) are
inputs, since hypervisor and host kernel are external collaborators.
Control flow of the source: allocate a slot, build the region record,
issue it; on hypervisor failure return
`Error::GuestMemory(MmapError::NoMemoryRegion)`; on success, if
`mergeable` is set, invoke the advisory, and on advisory failure only log
warnings; return `Ok(slot)`. -/
def create_userspace_mapping (m : MemoryManager)
    (guest_phys_addr memory_size userspace_addr : Nat)
    (mergeable : Bool) (kvmOk : Bool) (madviseRet : Int) : MappingOutcome :=
  let p := allocate_kvm_memory_slot m
  let mem_region : kvm_userspace_memory_region :=
    { slot := p.1
      guest_phys_addr := guest_phys_addr
      memory_size := memory_size
      userspace_addr := userspace_addr
      flags := 0 }
  if kvmOk then
    { result := Except.ok p.1
      state := p.2
      issued := mem_region
      advisoryInvoked := mergeable
      mergeWarning := mergeable && (madviseRet != 0) }
  else
    { result := Except.error (Error.GuestMemory MmapError.NoMemoryRegion)
      state := p.2
      issued := mem_region
      advisoryInvoked := false
      mergeWarning := false }

/-- Modelled from the spec: `arch::layout::MEM_32BIT_RESERVED_START`, the
fixed 32-bit reserved boundary of the architecture layout collaborator.
The arch crate is not under `src/`; the spec calls it the fixed 32-bit
reserved boundary below 4GiB, conventionally 3GiB. The theorems below do
not depend on the exact value. -/
def MEM_32BIT_RESERVED_START : Nat := 0xc0000000

/-- Modelled from the spec: `arch::layout::RAM_64BIT_START`, the fixed
64-bit RAM start constant of the architecture layout collaborator, the
first address past the 32-bit hole, conventionally 4GiB. -/
def RAM_64BIT_START : Nat := 0x100000000

/-- `GuestMemoryMmap::end_addr` of the external vm-memory crate: the
highest mapped address, i.e. the maximum over the regions of
(address + length - 1); 0 for an empty object. Construction of the guest
memory object guarantees that no region wraps past `2^64`. -/
def end_addr (regions : List (Nat × Nat)) : Nat :=
  regions.foldl (fun acc r => max acc (r.1 + r.2 - 1)) 0

/-- The device-area start computation of `MemoryManager::new` (source
lines 128-132): if the guest memory end address is below the 32-bit
reserved boundary, the fixed 64-bit RAM start; otherwise
`mem_end.unchecked_add(1)`, which wraps modulo `2^64` (release-build
semantics of the unchecked addition). -/
def start_of_device_area_of (mem_end : Nat) : Nat :=
  if mem_end < MEM_32BIT_RESERVED_START then
    RAM_64BIT_START
  else
    (mem_end + 1) % 2 ^ 64

/-- The device-area end computation of `MemoryManager::new` (source line
126): `GuestAddress((1 << get_host_cpu_phys_bits()) - 1)` on `u64`, with
the shift amount masked by the word width (release-build semantics). -/
def end_of_device_area_of (bits : Nat) : Nat :=
  ((1 <<< (bits % 64)) - 1) % 2 ^ 64

/-- What the checks `backing_file.is_file()` / `backing_file.is_dir()`
observe about the caller-supplied backing path: an existing regular file,
an existing directory, or anything else (missing path, special file, ...).
The path is checked once per region in the source; the model assumes the
filesystem answer is stable across the loop. -/
inductive BackingPathKind where
  | file
  | dir
  | other
deriving DecidableEq

/-- Per-region outcomes of the host OS calls made by the backing-store
loop of `MemoryManager::new` (source lines 92-119), indexed by the region
position. `openResult` is the `OpenOptions::open` outcome for the regular
file branch (the opened descriptor, or an errno); `setLenFile` is the
`set_len` outcome on that file; `mkstempFd` is the raw return value of
`libc::mkstemp` (a descriptor, or -1 on failure); `setLenTmp` is the
`set_len` outcome on the descriptor wrapped from `mkstempFd`. -/
structure BackingEnv where
  openResult : Nat → Except Nat Int
  setLenFile : Nat → Except Nat Unit
  mkstempFd : Nat → Int
  setLenTmp : Nat → Except Nat Unit

/-- The backing-store loop of `MemoryManager::new` (source lines 92-119):
walk the RAM region list, and per region either open-and-resize the
shared regular file, or mkstemp-unlink-and-resize a temporary file inside
the directory, or - when the path is neither an existing regular file nor
an existing directory - fall through both branches and push nothing.
The accumulator entry is (guest address, length, backing descriptor),
the descriptor being the file descriptor with offset 0
(`FileOffset::new(file, 0)`). Note the directory branch never inspects
`mkstempFd`: the source wraps the raw value with `File::from_raw_fd`
unconditionally and proceeds to `set_len`. -/
def build_backed_regions (kind : BackingPathKind) (env : BackingEnv) :
    List (Nat × Nat) → Nat → Except Error (List (Nat × Nat × Option (Int × Nat)))
  | [], _ => Except.ok []
  | region :: rest, i =>
    match kind with
    | BackingPathKind.file =>
      match env.openResult i with
      | Except.error e => Except.error (Error.SharedFileCreate e)
      | Except.ok fd =>
        match env.setLenFile i with
        | Except.error e => Except.error (Error.SharedFileSetLen e)
        | Except.ok _ =>
          match build_backed_regions kind env rest (i + 1) with
          | Except.error e => Except.error e
          | Except.ok tl => Except.ok ((region.1, region.2, some (fd, 0)) :: tl)
    | BackingPathKind.dir =>
      let fd := env.mkstempFd i
      match env.setLenTmp i with
      | Except.error e => Except.error (Error.SharedFileSetLen e)
      | Except.ok _ =>
        match build_backed_regions kind env rest (i + 1) with
        | Except.error e => Except.error e
        | Except.ok tl => Except.ok ((region.1, region.2, some (fd, 0)) :: tl)
    | BackingPathKind.other =>
      build_backed_regions kind env rest (i + 1)

/-- All per-call outcomes of the external collaborators consulted by
`MemoryManager::new`: the backing-store syscalls, the guest memory object
construction (`GuestMemoryMmap::with_files` / `GuestMemoryMmap::new`)
outcome, the probed physical address bits, and - indexed by region or
arch-region position - the host mapping address of each built region, the
KVM set-user-memory-region outcome, the madvise return value and the
allocator reservation outcome. -/
structure NewEnv where
  backing : BackingEnv
  guestMemoryErr : Option MmapError
  phys_bits : Nat
  hva : Nat → Nat
  kvmOk : Nat → Bool
  madviseRet : Nat → Int
  allocOk : Nat → Bool

/-- The RAM region filter of `MemoryManager::new` (source lines 84-88):
keep the arch regions of type `Ram` as (address, length) pairs. -/
def ram_regions_of (arch_mem_regions : List (Nat × Nat × RegionType)) :
    List (Nat × Nat) :=
  (arch_mem_regions.filter (fun r => r.2.2 == RegionType.Ram)).map
    (fun r => (r.1, r.2.1))

/-- The guest memory construction of `MemoryManager::new` (source lines
90-124): with a backing path, run the backing-store loop and hand the
accumulated regions to `GuestMemoryMmap::with_files`; without one, hand
the RAM regions to `GuestMemoryMmap::new`. Either constructor failure is
wrapped as `Error::GuestMemory`. The result is the region list of the
built object (descriptors dropped, as nothing downstream reads them). -/
def build_guest_regions (backing : Option BackingPathKind) (env : NewEnv)
    (ram_regions : List (Nat × Nat)) : Except Error (List (Nat × Nat)) :=
  match backing with
  | some kind =>
    match build_backed_regions kind env.backing ram_regions 0 with
    | Except.error e => Except.error e
    | Except.ok mem_regions =>
      match env.guestMemoryErr with
      | some e => Except.error (Error.GuestMemory e)
      | none => Except.ok (mem_regions.map (fun r => (r.1, r.2.1)))
  | none =>
    match env.guestMemoryErr with
    | some e => Except.error (Error.GuestMemory e)
    | none => Except.ok ram_regions

/-- The `with_regions` registration loop of `MemoryManager::new` (source
lines 144-152): for each region of the built guest memory, call
`create_userspace_mapping` with the region start, length, host mapping
address and the mergeable flag; abort on the first failure; collect the
memory-region records issued to the hypervisor. -/
def register_ram_regions (env : NewEnv) (mergeable : Bool) :
    List (Nat × Nat) → Nat → MemoryManager →
    Except Error (MemoryManager × List kvm_userspace_memory_region)
  | [], _, m => Except.ok (m, [])
  | region :: rest, i, m =>
    let o := create_userspace_mapping m region.1 region.2 (env.hva i)
      mergeable (env.kvmOk i) (env.madviseRet i)
    match o.result with
    | Except.error e => Except.error e
    | Except.ok _ =>
      match register_ram_regions env mergeable rest (i + 1) o.state with
      | Except.error e => Except.error e
      | Except.ok (m2, t) => Except.ok (m2, o.issued :: t)

/-- The allocator reservation loop of `MemoryManager::new` (source lines
154-161): reserve the address range of every arch region (RAM and
reserved alike) in the general allocator; a `None` answer is
`Error::MemoryRangeAllocation`. -/
def reserve_address_ranges (allocOk : Nat → Bool) :
    List (Nat × Nat × RegionType) → Nat → Except Error Unit
  | [], _ => Except.ok ()
  | _ :: rest, i =>
    if allocOk i then reserve_address_ranges allocOk rest (i + 1)
    else Except.error Error.MemoryRangeAllocation

/-- `MemoryManager::new` (source lines 74-164): filter the RAM regions,
build the guest memory object, compute the device-area boundaries, seed
the manager with the slot counter at the RAM region count (`as u32`
truncation kept), register every built region through
`create_userspace_mapping`, then reserve every arch region range in the
allocator. Returns the manager together with the memory-region records
issued to the hypervisor. -/
def MemoryManager.new (arch_mem_regions : List (Nat × Nat × RegionType))
    (backing : Option BackingPathKind) (mergeable : Bool) (env : NewEnv) :
    Except Error (MemoryManager × List kvm_userspace_memory_region) :=
  match build_guest_regions backing env (ram_regions_of arch_mem_regions) with
  | Except.error e => Except.error e
  | Except.ok g =>
    match register_ram_regions env mergeable g 0
      { guest_memory := g
        next_kvm_memory_slot := (ram_regions_of arch_mem_regions).length % 2 ^ 32
        start_of_device_area := start_of_device_area_of (end_addr g)
        end_of_device_area := end_of_device_area_of env.phys_bits } with
    | Except.error e => Except.error e
    | Except.ok (m, trace) =>
      match reserve_address_ranges env.allocOk arch_mem_regions 0 with
      | Except.error e => Except.error e
      | Except.ok _ => Except.ok (m, trace)

/-- A boot layout with a single 512 MiB RAM region at address 0, as the
architecture layout collaborator would produce for a small boot RAM. -/
def okArch : List (Nat × Nat × RegionType) := [(0, 0x20000000, RegionType.Ram)]

/-- An all-success environment: every host OS, hypervisor and allocator
call succeeds, and the probed physical address width is 46 bits. -/
def okEnv : NewEnv :=
  { backing :=
      { openResult := fun _ => Except.ok 3
        setLenFile := fun _ => Except.ok ()
        mkstempFd := fun _ => 4
        setLenTmp := fun _ => Except.ok () }
    guestMemoryErr := none
    phys_bits := 46
    hva := fun _ => 0x7f0000000000
    kvmOk := fun _ => true
    madviseRet := fun _ => 0
    allocOk := fun _ => true }

/-- The manager that `MemoryManager.new okArch none false okEnv`
produces. -/
def okM : MemoryManager :=
  { guest_memory := [(0, 0x20000000)]
    next_kvm_memory_slot := 2
    start_of_device_area := 0x100000000
    end_of_device_area := 0x3fffffffffff }

/-- The hypervisor registration trace of
`MemoryManager.new okArch none false okEnv`. -/
def okT : List kvm_userspace_memory_region :=
  [{ slot := 1
     guest_phys_addr := 0
     memory_size := 0x20000000
     userspace_addr := 0x7f0000000000
     flags := 0 }]

/-- A layout whose single RAM region ends at the maximal 64-bit guest
physical address `2^64 - 1`. -/
def topArch : List (Nat × Nat × RegionType) :=
  [(0x8000000000000000, 0x8000000000000000, RegionType.Ram)]

/-- The manager that `MemoryManager.new topArch none false okEnv`
produces: the device-area start has wrapped to 0. -/
def topM : MemoryManager :=
  { guest_memory := [(0x8000000000000000, 0x8000000000000000)]
    next_kvm_memory_slot := 2
    start_of_device_area := 0
    end_of_device_area := 0x3fffffffffff }

/-- The hypervisor registration trace of
`MemoryManager.new topArch none false okEnv`. -/
def topT : List kvm_userspace_memory_region :=
  [{ slot := 1
     guest_phys_addr := 0x8000000000000000
     memory_size := 0x8000000000000000
     userspace_addr := 0x7f0000000000
     flags := 0 }]

/-- An AuthenticAMD host with SME enabled: maximum extended leaf
`0x8000_001f`, SME feature bit set, reduction field 5 (ebx of the
encryption leaf is `5 << 6`), raw physical address bits 48. -/
def amdCpu : HostCpuid :=
  { leaf_8000_0000 := ⟨0x8000001f, 0x68747541, 0x444d4163, 0x69746e65⟩
    leaf_8000_001f := ⟨1, 0x140, 0, 0⟩
    leaf_8000_0008 := ⟨0x30, 0, 0, 0⟩ }

/-- A directory-backing environment in which temporary-file creation
fails: `mkstemp` returns -1 and the subsequent `set_len` on the
descriptor wrapped from -1 fails with EBADF (errno 9), which is what the
host OS returns for an operation on an invalid descriptor. -/
def dirFailEnv : BackingEnv :=
  { openResult := fun _ => Except.ok 3
    setLenFile := fun _ => Except.ok ()
    mkstempFd := fun _ => -1
    setLenTmp := fun _ => Except.error 9 }

/-- A file-backing environment in which opening the backing file fails
with EACCES (errno 13). -/
def openFailEnv : BackingEnv :=
  { openResult := fun _ => Except.error 13
    setLenFile := fun _ => Except.ok ()
    mkstempFd := fun _ => 5
    setLenTmp := fun _ => Except.ok () }

/-- A sample manager state with the slot counter at 5. -/
def sampleManager : MemoryManager :=
  { guest_memory := [(0, 0x1000)]
    next_kvm_memory_slot := 5
    start_of_device_area := 0x100000000
    end_of_device_area := 0x3fffffffffff }

/-- The state after `create_userspace_mapping` is always the input state
with the slot counter bumped, regardless of every other input. -/
theorem create_userspace_mapping_state (m : MemoryManager)
    (gpa sz hva : Nat) (mergeable kvmOk : Bool) (madviseRet : Int) :
    (create_userspace_mapping m gpa sz hva mergeable kvmOk madviseRet).state =
      { m with next_kvm_memory_slot := (m.next_kvm_memory_slot + 1) % 2 ^ 32 } := by
  cases kvmOk <;> rfl

/-- The registration loop never touches the guest memory handle or the
device-area boundaries: on success they are those of the input state. -/
theorem register_ram_regions_preserves (env : NewEnv) (mergeable : Bool)
    (l : List (Nat × Nat)) :
    ∀ (i : Nat) (m m2 : MemoryManager) (t : List kvm_userspace_memory_region),
      register_ram_regions env mergeable l i m = Except.ok (m2, t) →
      m2.guest_memory = m.guest_memory ∧
      m2.start_of_device_area = m.start_of_device_area ∧
      m2.end_of_device_area = m.end_of_device_area := by
  induction l with
  | nil =>
    intro i m m2 t h
    simp only [register_ram_regions, Except.ok.injEq, Prod.mk.injEq] at h
    obtain ⟨h1, _⟩ := h
    rw [← h1]
    exact ⟨rfl, rfl, rfl⟩
  | cons r rest ih =>
    intro i m m2 t h
    rw [register_ram_regions] at h
    split at h
    · exact absurd h (by simp)
    · split at h
      · exact absurd h (by simp)
      · rename_i heq mr tr hrec
        simp only [Except.ok.injEq, Prod.mk.injEq] at h
        obtain ⟨h1, _⟩ := h
        subst h1
        have hfields := ih (i + 1) _ _ _ hrec
        rw [create_userspace_mapping_state] at hfields
        exact hfields

/-- On success, the fields of the constructed manager other than the slot
counter are exactly what the layout computations of `MemoryManager::new`
produced from the built guest memory and the probed address width. -/
theorem new_ok_fields (arch : List (Nat × Nat × RegionType))
    (backing : Option BackingPathKind) (mergeable : Bool) (env : NewEnv)
    (M : MemoryManager) (T : List kvm_userspace_memory_region)
    (h : MemoryManager.new arch backing mergeable env = Except.ok (M, T)) :
    M.start_of_device_area = start_of_device_area_of (end_addr M.guest_memory) ∧
    M.end_of_device_area = end_of_device_area_of env.phys_bits := by
  rw [MemoryManager.new] at h
  split at h
  · exact absurd h (by simp)
  · split at h
    · exact absurd h (by simp)
    · split at h
      · exact absurd h (by simp)
      · rename_i x1 g hg x2 m2 t2 hreg x3 u hres
        simp only [Except.ok.injEq, Prod.mk.injEq] at h
        obtain ⟨h1, _⟩ := h
        subst h1
        have hfields := register_ram_regions_preserves env mergeable g 0 _ _ _ hreg
        obtain ⟨hgm, hs, he⟩ := hfields
        simp only at hgm hs he
        rw [hs, he, hgm]
        exact ⟨rfl, rfl⟩

/-- Without wraparound, `k` successive allocations return exactly the
ascending range starting at the current counter. -/
theorem allocate_slots_eq_range' :
    ∀ (K : Nat) (m : MemoryManager), m.next_kvm_memory_slot + K ≤ 2 ^ 32 →
      (allocate_slots K m).1 = List.range' m.next_kvm_memory_slot K := by
  intro K
  induction K with
  | zero => intro m _; rfl
  | succ K ih =>
    intro m h
    rw [List.range'_succ]
    show m.next_kvm_memory_slot ::
        (allocate_slots K
          { m with next_kvm_memory_slot := (m.next_kvm_memory_slot + 1) % 2 ^ 32 }).1 =
      m.next_kvm_memory_slot :: List.range' (m.next_kvm_memory_slot + 1) K
    cases K with
    | zero => rfl
    | succ K2 =>
      have hlt : m.next_kvm_memory_slot + 1 < 2 ^ 32 := by omega
      have hmod : (m.next_kvm_memory_slot + 1) % 2 ^ 32 = m.next_kvm_memory_slot + 1 :=
        Nat.mod_eq_of_lt hlt
      have := ih { m with next_kvm_memory_slot := (m.next_kvm_memory_slot + 1) % 2 ^ 32 }
        (by simp only; omega)
      simp only at this
      rw [this, hmod]

/-- C1: the claim says that after successful construction the initial RAM
regions occupy hypervisor slots [0, N), the slot counter equals N, and
the first post-construction allocation returns N. The code disagrees:
the counter is seeded at N and registration then allocates again, so with
one initial region (N = 1) the region is registered under slot 1 (slot 0
is never used), the counter ends at 2 and the first dynamic allocation
returns 2. This theorem evaluates the construction at that failing
input. -/
theorem c1_construction_slot_accounting :
    MemoryManager.new okArch none false okEnv = Except.ok (okM, okT) ∧
    okT.map kvm_userspace_memory_region.slot = [1] ∧
    okM.next_kvm_memory_slot = 2 ∧
    (allocate_kvm_memory_slot okM).1 = 2 ∧
    ¬(okT.map kvm_userspace_memory_region.slot = [0] ∧
      okM.next_kvm_memory_slot = 1 ∧
      (allocate_kvm_memory_slot okM).1 = 1) := by
  refine ⟨rfl, rfl, rfl, rfl, ?_⟩
  intro hclaim
  exact absurd hclaim.2.1 (by decide)

/-- C2: `allocate_kvm_memory_slot` returns the current counter value and
increments the counter by one, and, without counter wraparound, K
successive calls return exactly the K distinct values
initial, initial + 1, ..., initial + K - 1. -/
theorem c2_allocate_slot_sequential (m : MemoryManager) (K : Nat)
    (h : m.next_kvm_memory_slot + K ≤ 2 ^ 32) :
    allocate_kvm_memory_slot m =
      (m.next_kvm_memory_slot,
        { m with next_kvm_memory_slot := (m.next_kvm_memory_slot + 1) % 2 ^ 32 }) ∧
    (allocate_slots K m).1 = List.range' m.next_kvm_memory_slot K ∧
    (allocate_slots K m).1.Nodup := by
  refine ⟨rfl, allocate_slots_eq_range' K m h, ?_⟩
  rw [allocate_slots_eq_range' K m h]
  exact List.nodup_range' _ _

/-- C2 witness: three allocations starting from counter 5 return
[5, 6, 7], pairwise distinct. -/
theorem c2_allocate_slot_sequential_witness :
    allocate_kvm_memory_slot sampleManager =
      (sampleManager.next_kvm_memory_slot,
        { sampleManager with
            next_kvm_memory_slot := (sampleManager.next_kvm_memory_slot + 1) % 2 ^ 32 }) ∧
    (allocate_slots 3 sampleManager).1 = List.range' sampleManager.next_kvm_memory_slot 3 ∧
    (allocate_slots 3 sampleManager).1.Nodup :=
  c2_allocate_slot_sequential sampleManager 3 (by decide)

/-- C3: for every successfully constructed manager whose guest memory
does not end at the maximal 64-bit address, the device-area start is the
fixed 64-bit RAM start when the highest mapped address is below the fixed
32-bit reserved boundary, and otherwise exactly one byte past the highest
mapped address; in both cases it is strictly greater than the highest
mapped address or equal to the 64-bit start constant. -/
theorem c3_device_area_start_no_overlap (arch : List (Nat × Nat × RegionType))
    (backing : Option BackingPathKind) (mergeable : Bool) (env : NewEnv)
    (M : MemoryManager) (T : List kvm_userspace_memory_region)
    (hok : MemoryManager.new arch backing mergeable env = Except.ok (M, T))
    (hno : end_addr M.guest_memory < 2 ^ 64 - 1) :
    (end_addr M.guest_memory < MEM_32BIT_RESERVED_START →
      M.start_of_device_area = RAM_64BIT_START) ∧
    (MEM_32BIT_RESERVED_START ≤ end_addr M.guest_memory →
      M.start_of_device_area = end_addr M.guest_memory + 1) ∧
    (end_addr M.guest_memory < M.start_of_device_area ∨
      M.start_of_device_area = RAM_64BIT_START) := by
  obtain ⟨hs, _⟩ := new_ok_fields arch backing mergeable env M T hok
  rw [hs]
  unfold start_of_device_area_of
  by_cases hlt : end_addr M.guest_memory < MEM_32BIT_RESERVED_START
  · rw [if_pos hlt]
    exact ⟨fun _ => rfl, fun hge => absurd hlt (by omega), Or.inr rfl⟩
  · rw [if_neg hlt]
    have hmod : (end_addr M.guest_memory + 1) % 2 ^ 64 = end_addr M.guest_memory + 1 :=
      Nat.mod_eq_of_lt (by omega)
    rw [hmod]
    exact ⟨fun hc => absurd hc hlt, fun _ => rfl, Or.inl (by omega)⟩

/-- C3 witness: for the concrete 512 MiB construction, RAM ends below the
32-bit reserved boundary and the device area starts at the 64-bit RAM
start constant, above the highest RAM address. -/
theorem c3_device_area_start_no_overlap_witness :
    okM.start_of_device_area = RAM_64BIT_START ∧
    (end_addr okM.guest_memory < okM.start_of_device_area ∨
      okM.start_of_device_area = RAM_64BIT_START) := by
  have h := c3_device_area_start_no_overlap okArch none false okEnv okM okT rfl (by decide)
  exact ⟨h.1 (by decide), h.2.2⟩

/-- C4 counterexample: the claim says the one-byte-past addition is
checked and that construction fails or aborts when the highest RAM
address is the maximal guest physical address. In the code the addition
is `unchecked_add(1)`: with a RAM region ending at `2^64 - 1`,
construction succeeds and the device-area start silently wraps to 0. -/
theorem c4_checked_add_counterexample :
    MemoryManager.new topArch none false okEnv = Except.ok (topM, topT) ∧
    end_addr topM.guest_memory = 2 ^ 64 - 1 ∧
    topM.start_of_device_area = 0 := by
  exact ⟨rfl, by decide, rfl⟩

/-- C4 amended: the addition computing the device-area start one byte
past the highest RAM address is unchecked and wraps modulo `2^64`
(release-build semantics): at the maximal guest physical address the
start silently becomes 0 instead of being detected as overflow. -/
theorem c4_device_area_start_wraps (mem_end : Nat)
    (h : MEM_32BIT_RESERVED_START ≤ mem_end) :
    start_of_device_area_of mem_end = (mem_end + 1) % 2 ^ 64 := by
  unfold start_of_device_area_of
  rw [if_neg (by omega)]

/-- C4 amended witness: at the maximal address the start wraps to 0. -/
theorem c4_device_area_start_wraps_witness :
    start_of_device_area_of (2 ^ 64 - 1) = 0 := by
  have h := c4_device_area_start_wraps (2 ^ 64 - 1) (by decide)
  rw [h]
  decide

/-- C5: for every successfully constructed manager, provided the probed
bit count is below the 64-bit word width (the source shifts by it
unguarded), the device-area end plus one is exactly the power of two
`2 ^ probed_bits = 1 <<< probed_bits`. -/
theorem c5_end_of_device_area_power_of_two (arch : List (Nat × Nat × RegionType))
    (backing : Option BackingPathKind) (mergeable : Bool) (env : NewEnv)
    (M : MemoryManager) (T : List kvm_userspace_memory_region)
    (hok : MemoryManager.new arch backing mergeable env = Except.ok (M, T))
    (hbits : env.phys_bits < 64) :
    M.end_of_device_area + 1 = 2 ^ env.phys_bits ∧
    M.end_of_device_area + 1 = 1 <<< env.phys_bits := by
  obtain ⟨_, he⟩ := new_ok_fields arch backing mergeable env M T hok
  rw [he]
  unfold end_of_device_area_of
  rw [Nat.mod_eq_of_lt hbits, Nat.shiftLeft_eq, one_mul]
  have h1 : (1 : Nat) ≤ 2 ^ env.phys_bits := Nat.one_le_two_pow
  have h2 : 2 ^ env.phys_bits - 1 < 2 ^ 64 := by
    have : 2 ^ env.phys_bits ≤ 2 ^ 64 := Nat.pow_le_pow_right (by omega) (by omega)
    omega
  rw [Nat.mod_eq_of_lt h2, Nat.sub_add_cancel h1]
  exact ⟨rfl, rfl⟩

/-- C5 witness: the concrete construction probed 46 bits and its
device-area end plus one is `2^46`. -/
theorem c5_end_of_device_area_power_of_two_witness :
    okM.end_of_device_area + 1 = 2 ^ okEnv.phys_bits ∧
    okM.end_of_device_area + 1 = 1 <<< okEnv.phys_bits :=
  c5_end_of_device_area_power_of_two okArch none false okEnv okM okT rfl (by decide)

/-- C6: the physical-address-width probe returns raw_bits - R for an
AuthenticAMD CPU with the memory-encryption feature enabled and reduction
field R (whenever R does not exceed raw_bits), returns raw_bits when the
vendor is not the AMD string or the feature is disabled, and returns the
default 36 when the address-size leaf is unsupported; being a total
function, it has no error path. -/
theorem c6_phys_bits_probe (c : HostCpuid) :
    (amd_sme_enabled c = true →
      sme_reduction c ≤ c.leaf_8000_0008.eax &&& 0xff →
      get_host_cpu_phys_bits c =
        (c.leaf_8000_0008.eax &&& 0xff) - sme_reduction c) ∧
    (amd_sme_enabled c = false → 0x80000008 ≤ c.leaf_8000_0000.eax →
      get_host_cpu_phys_bits c = c.leaf_8000_0008.eax &&& 0xff) ∧
    (c.leaf_8000_0000.eax < 0x80000008 → get_host_cpu_phys_bits c = 36) := by
  have hraw : c.leaf_8000_0008.eax &&& 0xff ≤ 0xff := Nat.and_le_right
  have hred : sme_reduction c ≤ 0x3f := Nat.and_le_right
  refine ⟨?_, ?_, ?_⟩
  · intro hamd hle
    have hleaf : 0x8000001f ≤ c.leaf_8000_0000.eax := by
      simp only [amd_sme_enabled, Bool.and_eq_true, decide_eq_true_eq] at hamd
      exact hamd.1.1.1.1
    unfold get_host_cpu_phys_bits
    rw [if_pos hamd, if_pos (by omega)]
    have e32 : (2 : Nat) ^ 32 = 4294967296 := by norm_num
    have e8 : (2 : Nat) ^ 8 = 256 := by norm_num
    rw [e32, e8]
    omega
  · intro hamd hge
    unfold get_host_cpu_phys_bits
    rw [hamd]
    simp only [Bool.false_eq_true, if_false, if_pos hge]
    have e32 : (2 : Nat) ^ 32 = 4294967296 := by norm_num
    have e8 : (2 : Nat) ^ 8 = 256 := by norm_num
    rw [e32, e8]
    omega
  · intro hlt
    unfold get_host_cpu_phys_bits
    rw [if_neg (by omega)]

/-- C6 witness: the concrete AMD host with raw bits 48 and reduction 5
probes as 43. -/
theorem c6_phys_bits_probe_witness :
    get_host_cpu_phys_bits amdCpu =
      (amdCpu.leaf_8000_0008.eax &&& 0xff) - sme_reduction amdCpu ∧
    get_host_cpu_phys_bits amdCpu = 43 := by
  have h := (c6_phys_bits_probe amdCpu).1 (by decide) (by decide)
  exact ⟨h, by rw [h]; decide⟩

/-- C7: when the hypervisor control call succeeds,
`create_userspace_mapping` returns success with the allocated slot id for
every madvise outcome, so an advisory failure is never propagated as an
error; and when `mergeable` is false the advisory is never invoked. -/
theorem c7_advisory_nonfatal (m : MemoryManager)
    (gpa sz hva : Nat) (mergeable : Bool) (madviseRet : Int) :
    (create_userspace_mapping m gpa sz hva mergeable true madviseRet).result =
      Except.ok m.next_kvm_memory_slot ∧
    (create_userspace_mapping m gpa sz hva false true madviseRet).advisoryInvoked = false := by
  exact ⟨rfl, rfl⟩

/-- C8: a RAM region whose backing path is neither an existing regular
file nor an existing directory falls through both branches of the
backing-store loop: no entry is produced and no error is returned, for
every region list and environment. -/
theorem c8_unmatched_backing_skipped (env : BackingEnv)
    (regions : List (Nat × Nat)) (i : Nat) :
    build_backed_regions BackingPathKind.other env regions i = Except.ok [] := by
  induction regions generalizing i with
  | nil => rfl
  | cons r rest ih => exact ih (i + 1)

/-- C9 counterexample: in the directory policy, a temporary-file creation
failure is not reported as the backing-file creation error kind. Here
`mkstemp` fails (returns -1); the code never checks it, wraps -1 as a
file and calls `set_len` on it, which the OS fails with EBADF (errno 9);
the builder reports `SharedFileSetLen 9`, not a `SharedFileCreate`
error. -/
theorem c9_dir_create_failure_misreported :
    build_backed_regions BackingPathKind.dir dirFailEnv [(0, 4096)] 0 =
      Except.error (Error.SharedFileSetLen 9) := rfl

/-- C9 amended: in the regular-file policy, creation/open failure and
length-set failure are reported as the two distinct error kinds
`SharedFileCreate` and `SharedFileSetLen`; in the directory policy a
length-set failure is reported as `SharedFileSetLen`, but temporary-file
creation is unchecked and the directory branch can never produce a
`SharedFileCreate` error; every builder error aborts guest memory
construction and is propagated unchanged to the caller of
`MemoryManager::new`. -/
theorem c9_error_kinds (env : BackingEnv) (gpa len e : Nat) :
    (env.openResult 0 = Except.error e →
      build_backed_regions BackingPathKind.file env [(gpa, len)] 0 =
        Except.error (Error.SharedFileCreate e)) ∧
    (∀ fd, env.openResult 0 = Except.ok fd → env.setLenFile 0 = Except.error e →
      build_backed_regions BackingPathKind.file env [(gpa, len)] 0 =
        Except.error (Error.SharedFileSetLen e)) ∧
    (env.setLenTmp 0 = Except.error e →
      build_backed_regions BackingPathKind.dir env [(gpa, len)] 0 =
        Except.error (Error.SharedFileSetLen e)) ∧
    (∀ (regions : List (Nat × Nat)) (i e2 : Nat),
      build_backed_regions BackingPathKind.dir env regions i ≠
        Except.error (Error.SharedFileCreate e2)) ∧
    (∀ (envN : NewEnv) (kind : BackingPathKind) (ram : List (Nat × Nat)) (err : Error),
      build_backed_regions kind envN.backing ram 0 = Except.error err →
      build_guest_regions (some kind) envN ram = Except.error err) ∧
    (∀ (arch : List (Nat × Nat × RegionType)) (backing : Option BackingPathKind)
        (mergeable : Bool) (envN : NewEnv) (err : Error),
      build_guest_regions backing envN (ram_regions_of arch) = Except.error err →
      MemoryManager.new arch backing mergeable envN = Except.error err) := by
  refine ⟨?_, ?_, ?_, ?_, ?_, ?_⟩
  · intro h
    simp [build_backed_regions, h]
  · intro fd h1 h2
    simp [build_backed_regions, h1, h2]
  · intro h
    simp [build_backed_regions, h]
  · intro regions
    induction regions with
    | nil => intro i e2; simp [build_backed_regions]
    | cons r rest ih =>
      intro i e2
      cases h3 : env.setLenTmp i with
      | error e3 => simp [build_backed_regions, h3]
      | ok u =>
        cases hrec : build_backed_regions BackingPathKind.dir env rest (i + 1) with
        | error e3 =>
          simp only [build_backed_regions, h3, hrec]
          intro hc
          injection hc with hc2
          exact ih (i + 1) e2 (hc2 ▸ hrec)
        | ok tl => simp [build_backed_regions, h3, hrec]
  · intro envN kind ram err h
    simp [build_guest_regions, h]
  · intro arch backing mergeable envN err h
    rw [MemoryManager.new, h]

/-- C9 amended witness: a file-policy open failure with errno 13 is
reported as `SharedFileCreate 13`. -/
theorem c9_error_kinds_witness :
    build_backed_regions BackingPathKind.file openFailEnv [(0, 4096)] 0 =
      Except.error (Error.SharedFileCreate 13) :=
  (c9_error_kinds openFailEnv 0 4096 13).1 rfl

/-- C10: when the hypervisor control call fails,
`create_userspace_mapping` returns the registration error, the slot
counter has been incremented and is not rolled back, the guest memory
handle and both device-area boundaries are unchanged, and (without
counter wraparound) every later allocation returns a strictly larger slot
id than the one consumed by the failed call. -/
theorem c10_failed_registration_consumes_slot (m : MemoryManager)
    (gpa sz hva : Nat) (mergeable : Bool) (madviseRet : Int) (k : Nat)
    (h : m.next_kvm_memory_slot + 1 + k ≤ 2 ^ 32) :
    (create_userspace_mapping m gpa sz hva mergeable false madviseRet).result =
      Except.error (Error.GuestMemory MmapError.NoMemoryRegion) ∧
    (create_userspace_mapping m gpa sz hva mergeable false madviseRet).state.next_kvm_memory_slot =
      (m.next_kvm_memory_slot + 1) % 2 ^ 32 ∧
    (create_userspace_mapping m gpa sz hva mergeable false madviseRet).state.guest_memory =
      m.guest_memory ∧
    (create_userspace_mapping m gpa sz hva mergeable false madviseRet).state.start_of_device_area =
      m.start_of_device_area ∧
    (create_userspace_mapping m gpa sz hva mergeable false madviseRet).state.end_of_device_area =
      m.end_of_device_area ∧
    (∀ s ∈ (allocate_slots k
        (create_userspace_mapping m gpa sz hva mergeable false madviseRet).state).1,
      m.next_kvm_memory_slot < s) := by
  refine ⟨rfl, rfl, rfl, rfl, rfl, ?_⟩
  intro s hs
  by_cases hw : m.next_kvm_memory_slot + 1 < 2 ^ 32
  · have hmod : (m.next_kvm_memory_slot + 1) % 2 ^ 32 = m.next_kvm_memory_slot + 1 :=
      Nat.mod_eq_of_lt hw
    rw [show (create_userspace_mapping m gpa sz hva mergeable false madviseRet).state =
        { m with next_kvm_memory_slot := (m.next_kvm_memory_slot + 1) % 2 ^ 32 } from rfl,
      allocate_slots_eq_range' k _ (by simp only; omega)] at hs
    simp only [hmod] at hs
    obtain ⟨i, hi, rfl⟩ := List.mem_range'.1 hs
    omega
  · have hk : k = 0 := by omega
    subst hk
    simp [allocate_slots] at hs

/-- C10 witness: with the counter at 5 and a failing hypervisor call, the
call returns the registration error and the counter moves to 6; the next
two allocations return 6 and 7, both above 5. -/
theorem c10_failed_registration_consumes_slot_witness :
    (create_userspace_mapping sampleManager 0x1000 0x2000 0x7000 true false 0).result =
      Except.error (Error.GuestMemory MmapError.NoMemoryRegion) ∧
    (create_userspace_mapping sampleManager 0x1000 0x2000 0x7000 true false 0).state.next_kvm_memory_slot =
      (sampleManager.next_kvm_memory_slot + 1) % 2 ^ 32 := by
  have h := c10_failed_registration_consumes_slot sampleManager 0x1000 0x2000 0x7000
    true 0 2 (by decide)
  exact ⟨h.1, h.2.1⟩
